import Mathlib

/-!
Shallow embedding of `code/index.py` (ECS container-instance draining lambda)
and verification of the specification's claims about it.

External AWS calls are modelled by a `World` record supplying each call's
result (as `Except String _`, an `.error` modelling a raised exception),
and every function returns the ordered trace of external calls it made.
Base64 decoding of the instance user data is transport-level plumbing: the
`World` supplies the already-decoded text that
`base64.b64decode(ec2Resp['UserData']['Value'])` would produce.
-/

namespace EcsDrain

/-- One ECS container instance as returned by `describe_container_instances`:
the fields the code reads are `containerInstanceArn`, `Ec2InstanceId` and
`status`. -/
structure ContainerInstance where
  containerInstanceArn : String
  ec2InstanceId : String
  status : String
  deriving DecidableEq, Repr

/-- The parsed SNS message body (`json.loads` of `Records[0].Sns.Message`).
`EC2InstanceId` and `AutoScalingGroupName` are read unconditionally;
`LifecycleTransition` and `LifecycleHookName` are optional keys (a `none`
models the key being absent, so reading it raises `KeyError`);
`containerInstanceId` is the extension field a prior republish may attach. -/
structure SnsMessage where
  ec2InstanceId : String
  autoScalingGroupName : String
  lifecycleTransition : Option String
  lifecycleHookName : Option String
  containerInstanceId : Option String
  deriving DecidableEq, Repr

/-- One element of the event's `Records` array, with the fields the handler
reads: the message body, the topic ARN and the subscription ARN. -/
structure SnsRecord where
  message : SnsMessage
  topicArn : String
  eventSubscriptionArn : String
  deriving DecidableEq, Repr

/-- The external calls the code can make, in the order the code makes them. -/
inductive ExtCall where
  | describeInstanceAttribute (instanceId : String)
  | listContainerInstances (cluster : Option String)
  | describeContainerInstances (cluster : Option String) (arns : List String)
  | updateContainerInstancesState (cluster : Option String) (arns : List String) (status : String)
  | listTasks (cluster : Option String) (containerInstance : String)
  | snsPublish (topicArn : String) (message : SnsMessage)
  | completeLifecycleAction (hookName asgName result instanceId : String)
  deriving DecidableEq, Repr

/-- Results of the external calls for one invocation.
`userData` is the outcome of `describe_instance_attribute` plus base64
decode (the decoded text). `pages` is the pagination of
`list_container_instances` merged with the per-page
`describe_container_instances`: one entry per page, each the page's records
or a failure raised while fetching that page. `listTasks` gives the
`taskArns` list per container-instance ARN. -/
structure World where
  userData : Except String String
  pages : List (Except String (List ContainerInstance))
  updateResult : Except String Unit
  listTasks : String → Except String (List String)
  publishResult : Except String Unit
  completeResult : Except String Unit

/-- `beginsWith needle hay`: does `hay` start with `needle`? -/
def beginsWith : List Char → List Char → Bool
  | [], _ => true
  | _ :: _, [] => false
  | c :: cs, d :: ds => c == d && beginsWith cs ds

/-- `hasSub needle hay`: does `needle` occur contiguously in `hay`?
Embeds Python's `hay.find(needle) > -1`. -/
def hasSub : List Char → List Char → Bool
  | n, [] => beginsWith n []
  | n, d :: t => beginsWith n (d :: t) || hasSub n t

/-- Python `hay.find(needle) > -1`. -/
def pyFind (hay needle : String) : Bool :=
  hasSub needle.data hay.data

/-- Helper for `pyTokens`: split on whitespace runs, dropping empty pieces;
`acc` holds the current token's characters in reverse. -/
def wsTokensAux : List Char → List Char → List String
  | [], acc => if acc.isEmpty then [] else [String.mk acc.reverse]
  | c :: cs, acc =>
    if c.isWhitespace then
      if acc.isEmpty then wsTokensAux cs []
      else String.mk acc.reverse :: wsTokensAux cs []
    else wsTokensAux cs (c :: acc)

/-- Python `s.split()`: split on whitespace, dropping empty pieces. -/
def pyTokens (s : String) : List String :=
  wsTokensAux s.data []

/-- Helper for `pySplitEq`: split at every `=`; `acc` holds the current
piece's characters in reverse. -/
def eqSplitAux : List Char → List Char → List (List Char)
  | [], acc => [acc.reverse]
  | c :: cs, acc =>
    if c == '=' then acc.reverse :: eqSplitAux cs []
    else eqSplitAux cs (c :: acc)

/-- Python `s.split('=')`. -/
def pySplitEq (s : String) : List String :=
  (eqSplitAux s.data []).map String.mk

/-- The user-data token scan of index.py lines 63-68 (duplicated at 164-169):
for every token containing `ECS_CLUSTER`, `clusterName = token.split('=')[1]`
(the last matching token wins; a matching token with no `=` raises
`IndexError`). `acc` is the `clusterName` accumulated so far
(initially `None`). -/
def findClusterName : List String → Option String → Except String (Option String)
  | [], acc => .ok acc
  | t :: ts, acc =>
    if pyFind t "ECS_CLUSTER" then
      match (pySplitEq t).get? 1 with
      | some v => findClusterName ts (some v)
      | none => .error "IndexError"
    else findClusterName ts acc

/-- The inner loop of index.py lines 81-113 over one page's records:
on the first record whose `Ec2InstanceId` matches, record its ARN, issue
`update_container_instances_state` unless the status is already `DRAINING`,
set `tmpMsgAppend`, and break; once a previous page already found the
instance (`found.isSome`), the loop breaks at the first non-matching record.
Returns (containerInstanceId, tmpMsgAppend, calls made). -/
def scanPage (cluster : Option String) (target : String) (found msg : Option String)
    (records : List ContainerInstance) (updateResult : Except String Unit) :
    Except String (Option String × Option String × List ExtCall) :=
  match records with
  | [] => .ok (found, msg, [])
  | r :: rs =>
    if r.ec2InstanceId = target then
      if r.status = "DRAINING" then
        .ok (some r.containerInstanceArn, some r.containerInstanceArn, [])
      else
        match updateResult with
        | .ok _ =>
          .ok (some r.containerInstanceArn, some r.containerInstanceArn,
            [.updateContainerInstancesState cluster [r.containerInstanceArn] "DRAINING"])
        | .error e => .error e
    else if found.isSome then
      .ok (found, msg, [])
    else
      scanPage cluster target found msg rs updateResult

/-- The paginator loop of index.py lines 70-113: for every page, one
`list_container_instances` call (the page fetch, which may raise) and one
`describe_container_instances` call on the page's ARNs, then the inner scan.
The loop never breaks at page level, so every page is iterated. -/
def scanPages (cluster : Option String) (target : String) (found msg : Option String)
    (pages : List (Except String (List ContainerInstance)))
    (updateResult : Except String Unit) :
    Except String (Option String × Option String × List ExtCall) :=
  match pages with
  | [] => .ok (found, msg, [])
  | .error e :: _ => .error e
  | .ok recs :: ps =>
    match scanPage cluster target found msg recs updateResult with
    | .error e => .error e
    | .ok (found2, msg2, calls) =>
      match scanPages cluster target found2 msg2 ps updateResult with
      | .error e => .error e
      | .ok (found3, msg3, calls2) =>
        .ok (found3, msg3,
          .listContainerInstances cluster ::
          .describeContainerInstances cluster (recs.map (fun r => r.containerInstanceArn)) ::
          (calls ++ calls2))

/-- `checkContainerInstanceTaskStatus` (index.py lines 45-132): resolve the
cluster name from user data, scan all pages for the instance, then — when it
was found — `list_tasks` on it and return `1` if `taskArns` is EMPTY and `0`
if it is non-empty (the code's `if not listTaskResp['taskArns']: return 1`);
when not found, return `0` with no task listing. Result: (tasksRunning,
tmpMsgAppend, trace of external calls). -/
def checkContainerInstanceTaskStatus (w : World) (ec2InstanceId : String) :
    Except String (Nat × Option String × List ExtCall) :=
  match w.userData with
  | .error e => .error e
  | .ok blob =>
    match findClusterName (pyTokens blob) none with
    | .error e => .error e
    | .ok clusterName =>
      match scanPages clusterName ec2InstanceId none none w.pages w.updateResult with
      | .error e => .error e
      | .ok (found, msg, calls) =>
        match found with
        | some cid =>
          match w.listTasks cid with
          | .error e => .error e
          | .ok taskArns =>
            if taskArns.isEmpty then
              .ok (1, msg, .describeInstanceAttribute ec2InstanceId ::
                (calls ++ [.listTasks clusterName cid]))
            else
              .ok (0, msg, .describeInstanceAttribute ec2InstanceId ::
                (calls ++ [.listTasks clusterName cid]))
        | none => .ok (0, msg, .describeInstanceAttribute ec2InstanceId :: calls)

/-- `publishToSNS` (index.py lines 30-42): one `sns.publish` call, returning
the string `"published"`. -/
def publishToSNS (w : World) (message : SnsMessage) (topicARN : String) :
    Except String (String × List ExtCall) :=
  match w.publishResult with
  | .error e => .error e
  | .ok _ => .ok ("published", [.snsPublish topicARN message])

/-- `lambdaHandler` (index.py lines 135-210): reads `Records[0]` only
(`IndexError` on an empty array), unconditionally fetches and scans the
instance user data (the resulting local `clusterName` is never used), and
only then branches on `LifecycleTransition`: when absent or not a
termination-start transition, nothing further happens; otherwise it reads
the hook name, runs the task-status check, merges `tmpMsgAppend` into the
message, and either republishes (`tasksRunning == 1`) or calls
`complete_lifecycle_action` (`tasksRunning == 0`) with the completion
failure caught and swallowed (the code's only try/except). Returns the
trace of external calls. -/
def lambdaHandler (w : World) (records : List SnsRecord) :
    Except String (List ExtCall) :=
  match records with
  | [] => .error "IndexError"
  | rec :: _ =>
    let message := rec.message
    match w.userData with
    | .error e => .error e
    | .ok blob =>
      match findClusterName (pyTokens blob) none with
      | .error e => .error e
      | .ok _clusterName =>
        match message.lifecycleTransition with
        | none => .ok [.describeInstanceAttribute message.ec2InstanceId]
        | some transition =>
          if pyFind transition "autoscaling:EC2_INSTANCE_TERMINATING" then
            match message.lifecycleHookName with
            | none => .error "KeyError"
            | some hook =>
              match checkContainerInstanceTaskStatus w message.ec2InstanceId with
              | .error e => .error e
              | .ok (tasksRunning, tmpMsgAppend, calls) =>
                let message2 := match tmpMsgAppend with
                  | some cid => { message with containerInstanceId := some cid }
                  | none => message
                if tasksRunning = 1 then
                  match publishToSNS w message2 rec.topicArn with
                  | .error e => .error e
                  | .ok (_, pubCalls) =>
                    .ok (.describeInstanceAttribute message.ec2InstanceId ::
                      (calls ++ pubCalls))
                else if tasksRunning = 0 then
                  .ok (.describeInstanceAttribute message.ec2InstanceId ::
                    (calls ++ [.completeLifecycleAction hook
                      message.autoScalingGroupName "CONTINUE" message.ec2InstanceId]))
                else
                  .ok (.describeInstanceAttribute message.ec2InstanceId :: calls)
          else .ok [.describeInstanceAttribute message.ec2InstanceId]

/-- The drain-transitioner fragment (index.py lines 94-110) as a function of
the matched record, with the control-plane effect of
`update_container_instances_state(..., status='DRAINING')` applied to the
record: if the status is already `DRAINING` no update call is issued and the
already-draining branch (the one that only logs) is taken, otherwise exactly
one update call is issued and the record becomes `DRAINING`. Returns
(record afterwards, number of update calls, took the already-draining
branch). -/
def ensureDraining (r : ContainerInstance) : ContainerInstance × Nat × Bool :=
  if r.status = "DRAINING" then (r, 0, true)
  else ({ r with status := "DRAINING" }, 1, false)

/-- Is this call `complete_lifecycle_action`? -/
def ExtCall.isCompleteCall : ExtCall → Bool
  | .completeLifecycleAction _ _ _ _ => true
  | _ => false

/-- Is this call `sns.publish`? -/
def ExtCall.isPublishCall : ExtCall → Bool
  | .snsPublish _ _ => true
  | _ => false

/-- Is this call `ecs.list_tasks`? -/
def ExtCall.isListTasksCall : ExtCall → Bool
  | .listTasks _ _ => true
  | _ => false

/-!
Concrete fixtures: a termination notification for instance `i-1` in
autoscaling group `asg-1` with hook `H1`, and worlds in which the cluster
`mycluster` (from the instance user data) has one page containing `i-1` in
`ACTIVE` state. `tickWorldLive` has one task running on the instance;
`tickWorldIdle` has none.
-/

def tickWorldLive : World where
  userData := .ok "FOO=1 ECS_CLUSTER=mycluster BAR"
  pages := [.ok [⟨"arn-1", "i-1", "ACTIVE"⟩]]
  updateResult := .ok ()
  listTasks := fun _ => .ok ["task-1"]
  publishResult := .ok ()
  completeResult := .ok ()

def tickWorldIdle : World :=
  { tickWorldLive with listTasks := fun _ => .ok [] }

def termMessage : SnsMessage :=
  ⟨"i-1", "asg-1", some "autoscaling:EC2_INSTANCE_TERMINATING", some "H1", none⟩

def termRecord : SnsRecord := ⟨termMessage, "topic-1", "sub-1"⟩

/-- The trace of a termination tick of `tickWorldLive` (one task running). -/
def liveTrace : List ExtCall :=
  [.describeInstanceAttribute "i-1",
   .describeInstanceAttribute "i-1",
   .listContainerInstances (some "mycluster"),
   .describeContainerInstances (some "mycluster") ["arn-1"],
   .updateContainerInstancesState (some "mycluster") ["arn-1"] "DRAINING",
   .listTasks (some "mycluster") "arn-1",
   .completeLifecycleAction "H1" "asg-1" "CONTINUE" "i-1"]

/-- The trace of a termination tick of `tickWorldIdle` (no task running). -/
def idleTrace : List ExtCall :=
  [.describeInstanceAttribute "i-1",
   .describeInstanceAttribute "i-1",
   .listContainerInstances (some "mycluster"),
   .describeContainerInstances (some "mycluster") ["arn-1"],
   .updateContainerInstancesState (some "mycluster") ["arn-1"] "DRAINING",
   .listTasks (some "mycluster") "arn-1",
   .snsPublish "topic-1" { termMessage with containerInstanceId := some "arn-1" }]

/-- A record whose notification has no `LifecycleTransition` key. -/
def noTransRecord : SnsRecord :=
  ⟨{ termMessage with lifecycleTransition := none }, "topic-1", "sub-1"⟩

/-- A record whose notification already carries `containerInstanceId`. -/
def attachedRecord : SnsRecord :=
  ⟨{ termMessage with containerInstanceId := some "arn-0" }, "topic-1", "sub-1"⟩

/-- A world whose instance user data holds no `ECS_CLUSTER` token; the one
page of the cluster listing holds an unrelated instance. -/
def noTokenWorld : World :=
  { tickWorldLive with
    userData := .ok "FOO=1 BAR=2"
    pages := [.ok [⟨"arn-9", "i-9", "ACTIVE"⟩]] }

/-- A world where the instance-attribute describe call fails. -/
def boomWorld : World :=
  { tickWorldLive with userData := .error "boom" }

/-- A world like `tickWorldLive` where `complete_lifecycle_action` fails. -/
def failCompleteWorld : World :=
  { tickWorldLive with completeResult := .error "denied" }

/-- A world whose cluster listing has two pages; the instance of interest
`i-1` sits on the second page and has no tasks. -/
def pagedWorld : World where
  userData := .ok "ECS_CLUSTER=c2"
  pages := [.ok [⟨"arn-a", "i-a", "ACTIVE"⟩], .ok [⟨"arn-2", "i-1", "ACTIVE"⟩]]
  updateResult := .ok ()
  listTasks := fun _ => .ok []
  publishResult := .ok ()
  completeResult := .ok ()

/-- A world whose cluster listing contains no record for `i-1`. -/
def noMatchWorld : World :=
  { pagedWorld with pages := [.ok [⟨"arn-a", "i-a", "ACTIVE"⟩]] }

end EcsDrain

namespace EcsDrain

/-- A page with no record for the target instance leaves the scan state
unchanged and issues no call. -/
theorem scanPage_no_match (c : Option String) (t : String) (f m : Option String)
    (u : Except String Unit) (recs : List ContainerInstance)
    (hno : ∀ x ∈ recs, x.ec2InstanceId ≠ t) :
    scanPage c t f m recs u = .ok (f, m, []) := by
  induction recs with
  | nil => rfl
  | cons r rs ih =>
    have hr : r.ec2InstanceId ≠ t := hno r (List.mem_cons_self r rs)
    simp only [scanPage, if_neg hr]
    cases f with
    | some a => simp
    | none =>
      simpa using ih (fun x hx => hno x (List.mem_cons_of_mem r hx))

/-- The inner loop returns the first matching record of a page: its ARN is
recorded and an update call is issued exactly when it is not yet
`DRAINING`. -/
theorem scanPage_finds_match (c : Option String) (t : String) (m : Option String)
    (recs1 : List ContainerInstance) (r : ContainerInstance)
    (recs2 : List ContainerInstance)
    (hno : ∀ x ∈ recs1, x.ec2InstanceId ≠ t) (hr : r.ec2InstanceId = t) :
    scanPage c t none m (recs1 ++ r :: recs2) (.ok ()) =
      .ok (some r.containerInstanceArn, some r.containerInstanceArn,
        if r.status = "DRAINING" then []
        else [.updateContainerInstancesState c [r.containerInstanceArn] "DRAINING"]) := by
  induction recs1 with
  | nil =>
    simp only [List.nil_append, scanPage, if_pos hr]
    split <;> rfl
  | cons a as ih =>
    have ha : a.ec2InstanceId ≠ t := hno a (List.mem_cons_self a as)
    simp only [List.cons_append, scanPage, if_neg ha, Option.isSome_none,
      Bool.false_eq_true, if_neg]
    exact ih (fun x hx => hno x (List.mem_cons_of_mem a hx))

/-- Scanning pages on which no record matches keeps the state and emits only
list and describe calls (in particular no task-list and no completion
call). -/
theorem scanPages_no_match (c : Option String) (t : String) (f m : Option String)
    (u : Except String Unit) (pages : List (Except String (List ContainerInstance)))
    (hp : ∀ q ∈ pages, ∃ rl, q = Except.ok rl ∧ ∀ x ∈ rl, x.ec2InstanceId ≠ t) :
    ∃ tr, scanPages c t f m pages u = .ok (f, m, tr) ∧
      ∀ x ∈ tr, x.isListTasksCall = false ∧ x.isCompleteCall = false := by
  induction pages with
  | nil => exact ⟨[], rfl, by simp⟩
  | cons q ps ih =>
    obtain ⟨rl, rfl, hno⟩ := hp q (List.mem_cons_self q ps)
    obtain ⟨tr, htr, hfree⟩ := ih (fun x hx => hp x (List.mem_cons_of_mem _ hx))
    simp only [scanPages, scanPage_no_match c t f m u rl hno, htr]
    refine ⟨_, rfl, ?_⟩
    intro x hx
    simp only [List.nil_append, List.mem_cons] at hx
    rcases hx with h | h | h
    · subst h; exact ⟨rfl, rfl⟩
    · subst h; exact ⟨rfl, rfl⟩
    · exact hfree x h

/-- Pagination is iterated page by page: when the matching record sits on a
later page (after pages with no match) it is still found, and subsequent
match-free pages do not disturb the result. -/
theorem scanPages_finds_match (c : Option String) (t : String)
    (ps1 : List (Except String (List ContainerInstance)))
    (recs1 : List ContainerInstance) (r : ContainerInstance)
    (recs2 : List ContainerInstance)
    (ps2 : List (Except String (List ContainerInstance)))
    (hp1 : ∀ q ∈ ps1, ∃ rl, q = Except.ok rl ∧ ∀ x ∈ rl, x.ec2InstanceId ≠ t)
    (hno : ∀ x ∈ recs1, x.ec2InstanceId ≠ t) (hr : r.ec2InstanceId = t)
    (hp2 : ∀ q ∈ ps2, ∃ rl, q = Except.ok rl ∧ ∀ x ∈ rl, x.ec2InstanceId ≠ t) :
    ∃ tr, scanPages c t none none (ps1 ++ .ok (recs1 ++ r :: recs2) :: ps2) (.ok ()) =
      .ok (some r.containerInstanceArn, some r.containerInstanceArn, tr) := by
  induction ps1 with
  | nil =>
    obtain ⟨tr2, htr2, _⟩ := scanPages_no_match c t (some r.containerInstanceArn)
      (some r.containerInstanceArn) (.ok ()) ps2 hp2
    simp only [List.nil_append, scanPages,
      scanPage_finds_match c t none recs1 r recs2 hno hr, List.append_eq, htr2]
    exact ⟨_, rfl⟩
  | cons q ps ih =>
    obtain ⟨rl, rfl, hql⟩ := hp1 q (List.mem_cons_self q ps)
    obtain ⟨tr, htr⟩ := ih (fun x hx => hp1 x (List.mem_cons_of_mem _ hx))
    simp only [List.cons_append, scanPages,
      scanPage_no_match c t none none (.ok ()) rl hql, List.append_eq, htr]
    exact ⟨_, rfl⟩

end EcsDrain

namespace EcsDrain

/-- When the page list is non-empty, the trace of the scan contains the
`list_container_instances` call for the resolved cluster. -/
theorem scanPages_head_mem (c : Option String) (t : String) (f m : Option String)
    (recs : List ContainerInstance) (ps : List (Except String (List ContainerInstance)))
    (u : Except String Unit) (out : Option String × Option String × List ExtCall)
    (h : scanPages c t f m (.ok recs :: ps) u = .ok out) :
    ExtCall.listContainerInstances c ∈ out.2.2 := by
  simp only [scanPages] at h
  split at h
  · exact absurd h (by simp)
  · split at h
    · exact absurd h (by simp)
    · simp only [Except.ok.injEq] at h
      subst h
      exact List.mem_cons_self _ _

/-- Every successful run of the task-status check starts its trace with the
`describe_instance_attribute` call: the user-data fetch is unconditional. -/
theorem check_trace_head (w : World) (id : String)
    (out : Nat × Option String × List ExtCall)
    (h : checkContainerInstanceTaskStatus w id = .ok out) :
    out.2.2.head? = some (.describeInstanceAttribute id) := by
  unfold checkContainerInstanceTaskStatus at h
  split at h
  · exact absurd h (by simp)
  · split at h
    · exact absurd h (by simp)
    · split at h
      · exact absurd h (by simp)
      · split at h
        · split at h
          · exact absurd h (by simp)
          · split at h <;> (simp only [Except.ok.injEq] at h; subst h; rfl)
        · simp only [Except.ok.injEq] at h; subst h; rfl

/-- When the cluster listing has at least one page, every successful run of
the task-status check makes the `list_container_instances` call for the
resolved cluster name. -/
theorem check_trace_mem_list (w : World) (id blob : String) (cn : Option String)
    (recs : List ContainerInstance) (ps : List (Except String (List ContainerInstance)))
    (out : Nat × Option String × List ExtCall)
    (h1 : w.userData = .ok blob)
    (h2 : findClusterName (pyTokens blob) none = .ok cn)
    (h3 : w.pages = .ok recs :: ps)
    (h : checkContainerInstanceTaskStatus w id = .ok out) :
    ExtCall.listContainerInstances cn ∈ out.2.2 := by
  unfold checkContainerInstanceTaskStatus at h
  split at h
  · rename_i e he
    rw [h1] at he
    exact absurd he (by simp)
  · rename_i blob2 hblob
    rw [h1] at hblob
    simp only [Except.ok.injEq] at hblob
    subst hblob
    split at h
    · rename_i e he
      rw [h2] at he
      exact absurd he (by simp)
    · rename_i cn2 hcn
      rw [h2] at hcn
      simp only [Except.ok.injEq] at hcn
      subst hcn
      split at h
      · exact absurd h (by simp)
      · rename_i found msg calls hscan
        rw [h3] at hscan
        have hmem := scanPages_head_mem cn id none none recs ps w.updateResult
          (found, msg, calls) hscan
        split at h
        · split at h
          · exact absurd h (by simp)
          · split at h <;>
              (simp only [Except.ok.injEq] at h; subst h;
               exact List.mem_cons_of_mem _ (List.mem_append_left _ hmem))
        · simp only [Except.ok.injEq] at h
          subst h
          exact List.mem_cons_of_mem _ hmem

end EcsDrain

namespace EcsDrain

/-- Decomposition of a successful task-status check run into its stages:
user-data fetch, cluster-name scan, page scan, and (when a record was found)
the task listing with the inverted emptiness test of index.py line 125. -/
theorem check_ok_decomp (w : World) (id : String)
    (out : Nat × Option String × List ExtCall)
    (h : checkContainerInstanceTaskStatus w id = .ok out) :
    ∃ blob cn found msg calls,
      w.userData = .ok blob ∧
      findClusterName (pyTokens blob) none = .ok cn ∧
      scanPages cn id none none w.pages w.updateResult = .ok (found, msg, calls) ∧
      ((∃ cid ta, found = some cid ∧ w.listTasks cid = .ok ta ∧
          out = (if ta.isEmpty then 1 else 0, msg,
            .describeInstanceAttribute id :: (calls ++ [.listTasks cn cid]))) ∨
        (found = none ∧
          out = (0, msg, .describeInstanceAttribute id :: calls))) := by
  unfold checkContainerInstanceTaskStatus at h
  split at h
  · exact absurd h (by simp)
  · rename_i blob hblob
    split at h
    · exact absurd h (by simp)
    · rename_i cn hcn
      split at h
      · exact absurd h (by simp)
      · rename_i found msg calls hscan
        split at h
        · rename_i cid
          split at h
          · exact absurd h (by simp)
          · rename_i ta hta
            refine ⟨blob, cn, some cid, msg, calls, hblob, hcn, hscan,
              Or.inl ⟨cid, ta, rfl, hta, ?_⟩⟩
            split at h <;> split <;> simp_all
        · refine ⟨blob, cn, none, msg, calls, hblob, hcn, hscan,
            Or.inr ⟨rfl, ?_⟩⟩
          simp only [Except.ok.injEq] at h
          exact h.symm

/-- The inner page scan only ever emits update calls: never a task-list or
completion call. -/
theorem scanPage_calls_free (c : Option String) (t : String) (f m : Option String)
    (recs : List ContainerInstance) (u : Except String Unit)
    (out : Option String × Option String × List ExtCall)
    (h : scanPage c t f m recs u = .ok out) :
    ∀ x ∈ out.2.2, x.isCompleteCall = false ∧ x.isListTasksCall = false := by
  induction recs with
  | nil =>
    simp only [scanPage, Except.ok.injEq] at h
    subst h; simp
  | cons r rs ih =>
    simp only [scanPage] at h
    split at h
    · split at h
      · simp only [Except.ok.injEq] at h; subst h; simp
      · split at h
        · simp only [Except.ok.injEq] at h; subst h
          intro x hx
          simp only [List.mem_singleton] at hx
          subst hx; exact ⟨rfl, rfl⟩
        · exact absurd h (by simp)
    · split at h
      · simp only [Except.ok.injEq] at h; subst h; simp
      · exact ih h

/-- The page scan emits only list, describe and update calls: never a
task-list or completion call. -/
theorem scanPages_calls_free (c : Option String) (t : String) (f m : Option String)
    (pages : List (Except String (List ContainerInstance))) (u : Except String Unit)
    (out : Option String × Option String × List ExtCall)
    (h : scanPages c t f m pages u = .ok out) :
    ∀ x ∈ out.2.2, x.isCompleteCall = false ∧ x.isListTasksCall = false := by
  induction pages generalizing f m out with
  | nil =>
    simp only [scanPages, Except.ok.injEq] at h
    subst h; simp
  | cons q ps ih =>
    cases q with
    | error e => exact absurd h (by simp [scanPages])
    | ok recs =>
      simp only [scanPages] at h
      split at h
      · exact absurd h (by simp)
      · rename_i f2 m2 calls hpage
        split at h
        · exact absurd h (by simp)
        · rename_i f3 m3 calls2 hrec
          simp only [Except.ok.injEq] at h
          subst h
          intro x hx
          simp only [List.mem_cons, List.mem_append] at hx
          rcases hx with hx | hx | hx | hx
          · subst hx; exact ⟨rfl, rfl⟩
          · subst hx; exact ⟨rfl, rfl⟩
          · exact scanPage_calls_free c t f m recs u _ hpage x hx
          · exact ih f2 m2 _ hrec x hx

/-- The task-status check never emits a completion call: completion belongs
to the handler alone. -/
theorem check_calls_complete_free (w : World) (id : String)
    (out : Nat × Option String × List ExtCall)
    (h : checkContainerInstanceTaskStatus w id = .ok out) :
    ∀ x ∈ out.2.2, x.isCompleteCall = false := by
  obtain ⟨blob, cn, found, msg, calls, hblob, hcn, hscan, hcase⟩ :=
    check_ok_decomp w id out h
  have hcalls := scanPages_calls_free cn id none none w.pages w.updateResult
    (found, msg, calls) hscan
  rcases hcase with ⟨cid, ta, hfound, hta, hout⟩ | ⟨hfound, hout⟩ <;> subst hout <;>
    intro x hx
  · simp only [List.mem_cons, List.mem_append, List.mem_singleton,
      List.not_mem_nil, or_false] at hx
    rcases hx with hx | hx | hx
    · subst hx; rfl
    · exact (hcalls x hx).1
    · subst hx; rfl
  · simp only [List.mem_cons] at hx
    rcases hx with hx | hx
    · subst hx; rfl
    · exact (hcalls x hx).1

end EcsDrain

namespace EcsDrain

/-- On a termination tick whose task-status check reports `tasksRunning = 0`,
the handler's trace is its own describe call, then the check's calls, then
exactly the completion call — independently of whether the completion call
itself succeeds or fails (the code's only try/except swallows it). -/
theorem lambdaHandler_drained (w : World) (r : SnsRecord) (rest : List SnsRecord)
    (blob : String) (cn : Option String) (transition hook : String)
    (out : Nat × Option String × List ExtCall)
    (h1 : w.userData = .ok blob)
    (h2 : findClusterName (pyTokens blob) none = .ok cn)
    (h4 : r.message.lifecycleTransition = some transition)
    (h5 : pyFind transition "autoscaling:EC2_INSTANCE_TERMINATING" = true)
    (h6 : r.message.lifecycleHookName = some hook)
    (hc : checkContainerInstanceTaskStatus w r.message.ec2InstanceId = .ok out)
    (h0 : out.1 = 0) :
    lambdaHandler w (r :: rest) =
      .ok (.describeInstanceAttribute r.message.ec2InstanceId ::
        (out.2.2 ++ [.completeLifecycleAction hook r.message.autoScalingGroupName
          "CONTINUE" r.message.ec2InstanceId])) := by
  obtain ⟨n, msg, calls⟩ := out
  simp only at h0
  subst h0
  simp only [lambdaHandler, h1, h2, h4, h5, h6, hc, if_true]
  simp

/-- Any successful handler run on a termination-start notification wraps a
successful task-status check: its trace is the handler's describe call, the
check's calls, and a branch-dependent tail. -/
theorem lambdaHandler_ok_decomp (w : World) (r : SnsRecord) (rest : List SnsRecord)
    (tr : List ExtCall) (transition hook : String)
    (h4 : r.message.lifecycleTransition = some transition)
    (h5 : pyFind transition "autoscaling:EC2_INSTANCE_TERMINATING" = true)
    (h6 : r.message.lifecycleHookName = some hook)
    (h : lambdaHandler w (r :: rest) = .ok tr) :
    ∃ out extra, checkContainerInstanceTaskStatus w r.message.ec2InstanceId = .ok out ∧
      tr = .describeInstanceAttribute r.message.ec2InstanceId :: (out.2.2 ++ extra) := by
  simp only [lambdaHandler, h4, h5, h6, if_true] at h
  split at h
  · exact absurd h (by simp)
  · rename_i blob hblob
    split at h
    · exact absurd h (by simp)
    · rename_i cn hcn
      split at h
      · exact absurd h (by simp)
      · rename_i n msg calls hcheck
        split at h
        · split at h
          · exact absurd h (by simp)
          · rename_i fst pubCalls hpub
            simp only [Except.ok.injEq] at h
            exact ⟨(n, msg, calls), pubCalls, hcheck, h.symm⟩
        · split at h
          · simp only [Except.ok.injEq] at h
            exact ⟨(n, msg, calls), _, hcheck, h.symm⟩
          · simp only [Except.ok.injEq] at h
            refine ⟨(n, msg, calls), [], hcheck, ?_⟩
            rw [← h]
            simp

/-- When the matching record sits on a later page, the check locates it and
returns its ARN as the message-append value. -/
theorem check_finds_later_page_match (w : World) (t blob : String)
    (cn : Option String)
    (ps1 : List (Except String (List ContainerInstance)))
    (recs1 : List ContainerInstance) (r : ContainerInstance)
    (recs2 : List ContainerInstance)
    (ps2 : List (Except String (List ContainerInstance))) (ta : List String)
    (h1 : w.userData = .ok blob)
    (h2 : findClusterName (pyTokens blob) none = .ok cn)
    (hu : w.updateResult = .ok ())
    (hpg : w.pages = ps1 ++ .ok (recs1 ++ r :: recs2) :: ps2)
    (hp1 : ∀ q ∈ ps1, ∃ rl, q = Except.ok rl ∧ ∀ x ∈ rl, x.ec2InstanceId ≠ t)
    (hno : ∀ x ∈ recs1, x.ec2InstanceId ≠ t)
    (hr : r.ec2InstanceId = t)
    (hp2 : ∀ q ∈ ps2, ∃ rl, q = Except.ok rl ∧ ∀ x ∈ rl, x.ec2InstanceId ≠ t)
    (hta : w.listTasks r.containerInstanceArn = .ok ta) :
    ∃ n tr, checkContainerInstanceTaskStatus w t =
      .ok (n, some r.containerInstanceArn, tr) := by
  obtain ⟨tr0, hscan⟩ := scanPages_finds_match cn t ps1 recs1 r recs2 ps2 hp1 hno hr hp2
  rw [← hu, ← hpg] at hscan
  cases hemp : ta.isEmpty
  · refine ⟨0, .describeInstanceAttribute t ::
      (tr0 ++ [.listTasks cn r.containerInstanceArn]), ?_⟩
    simp only [checkContainerInstanceTaskStatus, h1, h2, hscan, hta, hemp,
      Bool.false_eq_true, if_false]
  · refine ⟨1, .describeInstanceAttribute t ::
      (tr0 ++ [.listTasks cn r.containerInstanceArn]), ?_⟩
    simp only [checkContainerInstanceTaskStatus, h1, h2, hscan, hta, hemp, if_true]

/-- When no page contains a matching record the check returns `(0, none)` —
no tasks, nothing to append — and never lists tasks. -/
theorem check_no_match_is_drained (w : World) (t blob : String) (cn : Option String)
    (h1 : w.userData = .ok blob)
    (h2 : findClusterName (pyTokens blob) none = .ok cn)
    (hp : ∀ q ∈ w.pages, ∃ rl, q = Except.ok rl ∧ ∀ x ∈ rl, x.ec2InstanceId ≠ t) :
    ∃ tr, checkContainerInstanceTaskStatus w t = .ok (0, none, tr) ∧
      ∀ x ∈ tr, x.isListTasksCall = false := by
  obtain ⟨tr0, hscan, hfree⟩ :=
    scanPages_no_match cn t none none w.updateResult w.pages hp
  refine ⟨.describeInstanceAttribute t :: tr0, ?_, ?_⟩
  · simp only [checkContainerInstanceTaskStatus, h1, h2, hscan]
  · intro x hx
    simp only [List.mem_cons] at hx
    rcases hx with hx | hx
    · subst hx; rfl
    · exact (hfree x hx).1

end EcsDrain

namespace EcsDrain

/-- C1: the claim says the coordinator never calls `complete_lifecycle_action`
in a tick whose located node record has a non-empty task list. The code does
the opposite: the inverted emptiness test of index.py line 125
(`if not listTaskResp['taskArns']`) reports `0` ("no tasks") for a NON-empty
task list, so the handler completes the lifecycle hook while a task is still
running — contradicting the code's own comment and log lines. Evaluated at
the concrete failing input. -/
theorem C1_completion_called_while_tasks_remain :
    tickWorldLive.listTasks "arn-1" = .ok ["task-1"] ∧
    lambdaHandler tickWorldLive [termRecord] = .ok liveTrace ∧
    ExtCall.completeLifecycleAction "H1" "asg-1" "CONTINUE" "i-1" ∈ liveTrace :=
  ⟨rfl, rfl, by decide⟩

/-- C2: the claim says a tick whose located node record has an empty task
list completes the hook exactly once and does not republish. The code does
the opposite: with an empty `taskArns` the inverted test of index.py line
125 reports `1` ("tasks running"), so the handler republishes to SNS once
and never calls `complete_lifecycle_action`. Evaluated at the concrete
failing input. -/
theorem C2_republish_instead_of_completion_when_drained :
    tickWorldIdle.listTasks "arn-1" = .ok [] ∧
    lambdaHandler tickWorldIdle [termRecord] = .ok idleTrace ∧
    idleTrace.countP ExtCall.isCompleteCall = 0 ∧
    idleTrace.countP ExtCall.isPublishCall = 1 :=
  ⟨rfl, rfl, by decide, by decide⟩

/-- C3 (counterexample): a notification with no `LifecycleTransition` key
still triggers one external call — the handler unconditionally issues
`describe_instance_attribute` before inspecting the transition — so "zero
external calls of any kind" is false at this concrete input. -/
theorem C3_describe_called_without_transition :
    noTransRecord.message.lifecycleTransition = none ∧
    lambdaHandler tickWorldLive [noTransRecord] =
      .ok [.describeInstanceAttribute "i-1"] ∧
    ([ExtCall.describeInstanceAttribute "i-1"] : List ExtCall) ≠ [] :=
  ⟨rfl, rfl, by decide⟩

/-- C3 (amended): for every notification whose `LifecycleTransition` key is
absent, the handler makes exactly one external call — the unconditional
instance-attribute describe used for cluster resolution — and no list,
update, publish or completion call. -/
theorem C3_single_describe_without_transition (w : World) (r : SnsRecord)
    (rest : List SnsRecord) (blob : String) (cn : Option String)
    (h1 : w.userData = .ok blob)
    (h2 : findClusterName (pyTokens blob) none = .ok cn)
    (h3 : r.message.lifecycleTransition = none) :
    lambdaHandler w (r :: rest) =
      .ok [.describeInstanceAttribute r.message.ec2InstanceId] := by
  simp only [lambdaHandler, h1, h2, h3]

/-- Witness for C3: the amended theorem applied at the concrete fixture. -/
theorem C3_single_describe_without_transition_witness :
    lambdaHandler tickWorldLive [noTransRecord] =
      .ok [.describeInstanceAttribute noTransRecord.message.ec2InstanceId] :=
  C3_single_describe_without_transition tickWorldLive noTransRecord []
    "FOO=1 ECS_CLUSTER=mycluster BAR" (some "mycluster") rfl rfl rfl

/-- C4 (counterexample): a notification that already carries
`containerInstanceId` still triggers the Node Locator enumeration — the
handler never reads the attached identifier and `list_container_instances`
appears in the trace. -/
theorem C4_locator_invoked_with_attached_id :
    attachedRecord.message.containerInstanceId = some "arn-0" ∧
    lambdaHandler tickWorldLive [attachedRecord] = .ok liveTrace ∧
    ExtCall.listContainerInstances (some "mycluster") ∈ liveTrace :=
  ⟨rfl, rfl, by decide⟩

/-- C4 (amended): the attached `containerInstanceId` is carried into the
republished message but never used to skip node location: on every
successful termination tick (cluster listing non-empty) the handler's trace
contains the `list_container_instances` enumeration, attached identifier or
not. -/
theorem C4_attached_id_never_skips_locator (w : World) (r : SnsRecord)
    (rest : List SnsRecord) (tr : List ExtCall) (blob : String)
    (cn : Option String) (recs : List ContainerInstance)
    (ps : List (Except String (List ContainerInstance)))
    (transition hook attached : String)
    (h1 : w.userData = .ok blob)
    (h2 : findClusterName (pyTokens blob) none = .ok cn)
    (h3 : w.pages = .ok recs :: ps)
    (h4 : r.message.lifecycleTransition = some transition)
    (h5 : pyFind transition "autoscaling:EC2_INSTANCE_TERMINATING" = true)
    (h6 : r.message.lifecycleHookName = some hook)
    (h7 : r.message.containerInstanceId = some attached)
    (h : lambdaHandler w (r :: rest) = .ok tr) :
    ExtCall.listContainerInstances cn ∈ tr := by
  obtain ⟨out, extra, hcheck, htr⟩ :=
    lambdaHandler_ok_decomp w r rest tr transition hook h4 h5 h6 h
  have hmem := check_trace_mem_list w r.message.ec2InstanceId blob cn recs ps out
    h1 h2 h3 hcheck
  subst htr
  exact List.mem_cons_of_mem _ (List.mem_append_left _ hmem)

/-- Witness for C4: the amended theorem applied at the concrete fixture. -/
theorem C4_attached_id_never_skips_locator_witness :
    ExtCall.listContainerInstances (some "mycluster") ∈ liveTrace :=
  C4_attached_id_never_skips_locator tickWorldLive attachedRecord [] liveTrace
    "FOO=1 ECS_CLUSTER=mycluster BAR" (some "mycluster")
    [⟨"arn-1", "i-1", "ACTIVE"⟩] []
    "autoscaling:EC2_INSTANCE_TERMINATING" "H1" "arn-0"
    rfl rfl rfl rfl rfl rfl rfl rfl

/-- C5: the drain transitioner is idempotent. On a record already in
`DRAINING` it issues no update call and reports the already-draining branch;
on any other record it issues exactly one update call, after which the
record is `DRAINING`, so a second invocation issues none and the two calls
together perform exactly one external mutation. -/
theorem C5_ensureDraining_idempotent (r : ContainerInstance) :
    (r.status = "DRAINING" → ensureDraining r = (r, 0, true)) ∧
    (r.status ≠ "DRAINING" →
      (ensureDraining r).2.1 = 1 ∧
      (ensureDraining r).2.2 = false ∧
      (ensureDraining r).1.status = "DRAINING" ∧
      (ensureDraining (ensureDraining r).1).2.1 = 0 ∧
      (ensureDraining r).2.1 + (ensureDraining (ensureDraining r).1).2.1 = 1) := by
  by_cases h : r.status = "DRAINING" <;> simp [ensureDraining, h]

/-- Witness for C5: both branches of the theorem at concrete records. -/
theorem C5_ensureDraining_idempotent_witness :
    ensureDraining ⟨"arn-1", "i-1", "DRAINING"⟩ =
      (⟨"arn-1", "i-1", "DRAINING"⟩, 0, true) ∧
    ((ensureDraining ⟨"arn-1", "i-1", "ACTIVE"⟩).2.1 = 1 ∧
      (ensureDraining ⟨"arn-1", "i-1", "ACTIVE"⟩).2.2 = false ∧
      (ensureDraining ⟨"arn-1", "i-1", "ACTIVE"⟩).1.status = "DRAINING" ∧
      (ensureDraining (ensureDraining ⟨"arn-1", "i-1", "ACTIVE"⟩).1).2.1 = 0 ∧
      (ensureDraining ⟨"arn-1", "i-1", "ACTIVE"⟩).2.1 +
        (ensureDraining (ensureDraining ⟨"arn-1", "i-1", "ACTIVE"⟩).1).2.1 = 1) :=
  ⟨(C5_ensureDraining_idempotent ⟨"arn-1", "i-1", "DRAINING"⟩).1 rfl,
   (C5_ensureDraining_idempotent ⟨"arn-1", "i-1", "ACTIVE"⟩).2 (by decide)⟩

end EcsDrain

namespace EcsDrain

/-- C6 (counterexample): when no `ECS_CLUSTER` token is present, cluster
resolution yields `None` and the code still proceeds to enumerate container
instances with the undefined cluster (`list_container_instances` with
cluster `none` appears in the trace) instead of stopping with NotFound;
there is also no statically-configured-name branch in this handler. -/
theorem C6_proceeds_with_undefined_cluster :
    findClusterName (pyTokens "FOO=1 BAR=2") none = .ok none ∧
    checkContainerInstanceTaskStatus noTokenWorld "i-1" =
      .ok (0, none,
        [.describeInstanceAttribute "i-1",
         .listContainerInstances none,
         .describeContainerInstances none ["arn-9"]]) ∧
    ExtCall.listContainerInstances none ∈
      ([.describeInstanceAttribute "i-1",
        .listContainerInstances none,
        .describeContainerInstances none ["arn-9"]] : List ExtCall) :=
  ⟨rfl, rfl, by decide⟩

/-- C6 (amended): the handler has no statically configured cluster name: it
always fetches the boot-configuration blob (every successful check run's
trace begins with the describe call), and when the blob scan yields no
cluster-name token it proceeds to enumerate with an undefined (`none`)
cluster rather than yielding NotFound. -/
theorem C6_always_fetches_and_proceeds_undefined (w : World) (id blob : String)
    (recs : List ContainerInstance)
    (ps : List (Except String (List ContainerInstance)))
    (out : Nat × Option String × List ExtCall)
    (h1 : w.userData = .ok blob)
    (h2 : findClusterName (pyTokens blob) none = .ok none)
    (h3 : w.pages = .ok recs :: ps)
    (h : checkContainerInstanceTaskStatus w id = .ok out) :
    out.2.2.head? = some (.describeInstanceAttribute id) ∧
    ExtCall.listContainerInstances none ∈ out.2.2 :=
  ⟨check_trace_head w id out h,
   check_trace_mem_list w id blob none recs ps out h1 h2 h3 h⟩

/-- Witness for C6: the amended theorem applied at the concrete fixture. -/
theorem C6_always_fetches_and_proceeds_undefined_witness :
    ([ExtCall.describeInstanceAttribute "i-1",
      ExtCall.listContainerInstances none,
      ExtCall.describeContainerInstances none ["arn-9"]] : List ExtCall).head? =
        some (.describeInstanceAttribute "i-1") ∧
    ExtCall.listContainerInstances none ∈
      ([.describeInstanceAttribute "i-1",
        .listContainerInstances none,
        .describeContainerInstances none ["arn-9"]] : List ExtCall) :=
  C6_always_fetches_and_proceeds_undefined noTokenWorld "i-1" "FOO=1 BAR=2"
    [⟨"arn-9", "i-9", "ACTIVE"⟩] []
    (0, none,
      [.describeInstanceAttribute "i-1",
       .listContainerInstances none,
       .describeContainerInstances none ["arn-9"]])
    rfl rfl rfl rfl

/-- C7 (counterexample): a failing external call outside the completion
boundary is not caught: when `describe_instance_attribute` raises, the
exception escapes the handler, so "no exception propagates out of a tick"
is false at this concrete input. -/
theorem C7_resolution_failure_escapes :
    boomWorld.userData = .error "boom" ∧
    lambdaHandler boomWorld [termRecord] = .error "boom" :=
  ⟨rfl, rfl⟩

/-- C7 (amended): the handler wraps only the completion call in try/except;
a failure of the cluster-resolution describe call propagates out of the
tick as an uncaught exception for every event, ending the tick with an
error instead of "do nothing". -/
theorem C7_uncaught_resolution_failure (w : World) (r : SnsRecord)
    (rest : List SnsRecord) (e : String) (h : w.userData = .error e) :
    lambdaHandler w (r :: rest) = .error e := by
  simp only [lambdaHandler, h]

/-- Witness for C7: the amended theorem applied at the concrete fixture. -/
theorem C7_uncaught_resolution_failure_witness :
    lambdaHandler boomWorld [termRecord] = .error "boom" :=
  C7_uncaught_resolution_failure boomWorld termRecord [] "boom" rfl

/-- C8: when `complete_lifecycle_action` fails, the failure is caught and
swallowed at that boundary: the handler still returns successfully and its
trace contains exactly one completion attempt — no retry, no propagation. -/
theorem C8_completion_failure_swallowed_not_retried (w : World) (r : SnsRecord)
    (rest : List SnsRecord) (blob : String) (cn : Option String)
    (transition hook e : String) (out : Nat × Option String × List ExtCall)
    (h1 : w.userData = .ok blob)
    (h2 : findClusterName (pyTokens blob) none = .ok cn)
    (h4 : r.message.lifecycleTransition = some transition)
    (h5 : pyFind transition "autoscaling:EC2_INSTANCE_TERMINATING" = true)
    (h6 : r.message.lifecycleHookName = some hook)
    (hc : checkContainerInstanceTaskStatus w r.message.ec2InstanceId = .ok out)
    (h0 : out.1 = 0)
    (hf : w.completeResult = .error e) :
    ∃ tr, lambdaHandler w (r :: rest) = .ok tr ∧
      tr.countP ExtCall.isCompleteCall = 1 := by
  refine ⟨_, lambdaHandler_drained w r rest blob cn transition hook out
    h1 h2 h4 h5 h6 hc h0, ?_⟩
  have hfree := check_calls_complete_free w r.message.ec2InstanceId out hc
  have hz : out.2.2.countP ExtCall.isCompleteCall = 0 :=
    List.countP_eq_zero.mpr (by intro a ha; simp [hfree a ha])
  simp [List.countP_cons, List.countP_append, hz, ExtCall.isCompleteCall]

/-- Witness for C8: the theorem applied at the concrete fixture whose
completion call fails. -/
theorem C8_completion_failure_swallowed_not_retried_witness :
    ∃ tr, lambdaHandler failCompleteWorld [termRecord] = .ok tr ∧
      tr.countP ExtCall.isCompleteCall = 1 :=
  C8_completion_failure_swallowed_not_retried failCompleteWorld termRecord []
    "FOO=1 ECS_CLUSTER=mycluster BAR" (some "mycluster")
    "autoscaling:EC2_INSTANCE_TERMINATING" "H1" "denied"
    (0, some "arn-1",
      [.describeInstanceAttribute "i-1",
       .listContainerInstances (some "mycluster"),
       .describeContainerInstances (some "mycluster") ["arn-1"],
       .updateContainerInstancesState (some "mycluster") ["arn-1"] "DRAINING",
       .listTasks (some "mycluster") "arn-1"])
    rfl rfl rfl rfl rfl rfl rfl rfl

end EcsDrain

namespace EcsDrain

/-- C9: node location is correct under pagination. First conjunct: when the
matching record sits on a later page (all earlier pages match-free), it is
found and its ARN returned, not missed. Second conjunct: when no record on
any page matches, the check returns `(0, none)` — NotFound treated as no
tasks, not an error — and never issues a task-list call. -/
theorem C9_pagination_locates_and_notfound_drains :
    (∀ (w : World) (t blob : String) (cn : Option String)
      (ps1 : List (Except String (List ContainerInstance)))
      (recs1 : List ContainerInstance) (r : ContainerInstance)
      (recs2 : List ContainerInstance)
      (ps2 : List (Except String (List ContainerInstance))) (ta : List String),
      w.userData = .ok blob →
      findClusterName (pyTokens blob) none = .ok cn →
      w.updateResult = .ok () →
      w.pages = ps1 ++ .ok (recs1 ++ r :: recs2) :: ps2 →
      (∀ q ∈ ps1, ∃ rl, q = Except.ok rl ∧ ∀ x ∈ rl, x.ec2InstanceId ≠ t) →
      (∀ x ∈ recs1, x.ec2InstanceId ≠ t) →
      r.ec2InstanceId = t →
      (∀ q ∈ ps2, ∃ rl, q = Except.ok rl ∧ ∀ x ∈ rl, x.ec2InstanceId ≠ t) →
      w.listTasks r.containerInstanceArn = .ok ta →
      ∃ n tr, checkContainerInstanceTaskStatus w t =
        .ok (n, some r.containerInstanceArn, tr)) ∧
    (∀ (w : World) (t blob : String) (cn : Option String),
      w.userData = .ok blob →
      findClusterName (pyTokens blob) none = .ok cn →
      (∀ q ∈ w.pages, ∃ rl, q = Except.ok rl ∧ ∀ x ∈ rl, x.ec2InstanceId ≠ t) →
      ∃ tr, checkContainerInstanceTaskStatus w t = .ok (0, none, tr) ∧
        ∀ x ∈ tr, x.isListTasksCall = false) :=
  ⟨fun w t blob cn ps1 recs1 r recs2 ps2 ta h1 h2 hu hpg hp1 hno hr hp2 hta =>
    check_finds_later_page_match w t blob cn ps1 recs1 r recs2 ps2 ta
      h1 h2 hu hpg hp1 hno hr hp2 hta,
   fun w t blob cn h1 h2 hp =>
    check_no_match_is_drained w t blob cn h1 h2 hp⟩

/-- Witness for C9: both conjuncts applied at concrete worlds — a match on
the second of two pages, and a world with no matching record. -/
theorem C9_pagination_locates_and_notfound_drains_witness :
    (∃ n tr, checkContainerInstanceTaskStatus pagedWorld "i-1" =
      .ok (n, some "arn-2", tr)) ∧
    (∃ tr, checkContainerInstanceTaskStatus noMatchWorld "i-1" =
      .ok (0, none, tr) ∧ ∀ x ∈ tr, x.isListTasksCall = false) :=
  ⟨C9_pagination_locates_and_notfound_drains.1 pagedWorld "i-1" "ECS_CLUSTER=c2"
      (some "c2") [.ok [⟨"arn-a", "i-a", "ACTIVE"⟩]] [] ⟨"arn-2", "i-1", "ACTIVE"⟩
      [] [] [] rfl rfl rfl rfl
      (by intro q hq
          simp only [List.mem_singleton] at hq
          subst hq
          exact ⟨_, rfl, by decide⟩)
      (by simp) rfl (by simp) rfl,
   C9_pagination_locates_and_notfound_drains.2 noMatchWorld "i-1" "ECS_CLUSTER=c2"
      (some "c2") rfl rfl
      (by intro q hq
          simp only [noMatchWorld, pagedWorld, List.mem_singleton] at hq
          subst hq
          exact ⟨_, rfl, by decide⟩)⟩

/-- C10: the handler reads only the first element of the event's `Records`
array: its entire behaviour — every external call included — is identical
whatever records follow the first. -/
theorem C10_only_first_record_processed (w : World) (r : SnsRecord)
    (rest : List SnsRecord) :
    lambdaHandler w (r :: rest) = lambdaHandler w [r] := rfl

end EcsDrain
